import Mathlib

/-!
Verification development for the cad-env core pipeline: a shallow embedding of
the command parser (`command_parser.py`), the natural-language processor
(`natural_language_processor.py`), the code generator and template catalog
(`freecad_code_generator.py`, `code_templates.py`) and the executor
(`code_executor.py`), together with theorems settling the specification claims.

Modelling conventions:
- Python strings are `List Char` (`Str`); `str.lower` is modelled for the
  Latin and Cyrillic ranges actually used by the patterns.
- Python floats are modelled as rationals (`ℚ`); all numeric literals in the
  code are exactly representable decimals.
- Python `re` patterns are transliterated into a small regex AST (`Re`) and
  run by a fueled backtracking matcher with Python's preference order
  (leftmost search position, left alternative first, greedy quantifiers).
- Host-process effects (subprocess outcome, wall-clock time) are passed in as
  explicit oracle arguments.
-/

namespace CadEnv

/-- Python strings, modelled as lists of characters. -/
abbrev Str := List Char

/-- Character list of a Lean string literal. -/
def strL (s : String) : Str := s.data

/-- `str.lower` for a single character, covering ASCII Latin and the Cyrillic
block used by the source patterns (А..Я and Ё). -/
def pyLowerChar (c : Char) : Char :=
  if 'A' ≤ c ∧ c ≤ 'Z' then Char.ofNat (c.toNat + 32)
  else if 'А' ≤ c ∧ c ≤ 'Я' then Char.ofNat (c.toNat + 32)
  else if c = 'Ё' then 'ё'
  else c

/-- `str.upper` for a single character (inverse direction, same ranges). -/
def pyUpperChar (c : Char) : Char :=
  if 'a' ≤ c ∧ c ≤ 'z' then Char.ofNat (c.toNat - 32)
  else if 'а' ≤ c ∧ c ≤ 'я' then Char.ofNat (c.toNat - 32)
  else if c = 'ё' then 'Ё'
  else c

/-- Python whitespace characters recognised by `str.strip` and `\s`. -/
def isPySpace (c : Char) : Bool :=
  c = ' ' || c = '\t' || c = '\n' || c = '\r' || c = '\x0b' || c = '\x0c'

/-- `str.strip`: drop whitespace from both ends. -/
def pyStrip (s : Str) : Str :=
  ((s.dropWhile isPySpace).reverse.dropWhile isPySpace).reverse

/-- `str.lower` on a whole string. -/
def pyLower (s : Str) : Str := s.map pyLowerChar

/-- `str.upper` on a whole string. -/
def pyUpper (s : Str) : Str := s.map pyUpperChar

/-! ## Regex AST and matcher

The constructs are exactly those appearing in the source patterns:
literals, character classes (given as inclusive ranges), `\d`, `\s`,
concatenation, alternation, greedy `*`, greedy `?`, and numbered capturing
groups (`match.groups()[n]` is capture `n`). -/

/-- Regex abstract syntax. -/
inductive Re : Type
  | eps : Re
  | lit : Char → Re
  | cls : List (Char × Char) → Re
  | ncls : List (Char × Char) → Re
  | digit : Re
  | wsp : Re
  | seq : Re → Re → Re
  | alt : Re → Re → Re
  | star : Re → Re
  | opt : Re → Re
  | grp : Nat → Re → Re
deriving Repr

/-- Concatenate a list of regexes. -/
def Re.cat (rs : List Re) : Re := rs.foldr Re.seq Re.eps

/-- Literal word: each character in sequence. -/
def Re.word (s : String) : Re := Re.cat (s.data.map Re.lit)

/-- Greedy `+`: one occurrence followed by `*`. -/
def Re.plus (r : Re) : Re := Re.seq r (Re.star r)

/-- Structural size, used to bound the matcher's recursion depth. -/
def Re.size : Re → Nat
  | .eps => 1
  | .lit _ => 1
  | .cls _ => 1
  | .ncls _ => 1
  | .digit => 1
  | .wsp => 1
  | .seq a b => a.size + b.size + 1
  | .alt a b => a.size + b.size + 1
  | .star a => a.size + 1
  | .opt a => a.size + 1
  | .grp _ a => a.size + 1

/-- Capture list: entry `n` holds the text of group `n` once matched. -/
abbrev Caps := List (Option Str)

/-- Captures before any group has matched (the patterns use at most 3 groups). -/
def initCaps : Caps := List.replicate 4 none

/-- Record the text of capture group `n`. -/
def setCap (caps : Caps) (n : Nat) (v : Str) : Caps := caps.set n (some v)

/-- Fueled CPS backtracking matcher.  `reM fuel r s caps k` tries every way of
matching `r` against a prefix of `s` in Python's preference order (left
alternative first, greedy quantifiers longest-first) and passes the remaining
input and updated captures to `k`, returning the first success. -/
def reM : Nat → Re → Str → Caps → (Str → Caps → Option (Str × Caps)) →
    Option (Str × Caps)
  | 0, _, _, _, _ => none
  | _ + 1, .eps, s, caps, k => k s caps
  | _ + 1, .lit c, s, caps, k =>
    match s with
    | [] => none
    | x :: rest => if x = c then k rest caps else none
  | _ + 1, .cls ranges, s, caps, k =>
    match s with
    | [] => none
    | x :: rest =>
      if ranges.any (fun p => p.1 ≤ x ∧ x ≤ p.2) then k rest caps else none
  | _ + 1, .ncls ranges, s, caps, k =>
    match s with
    | [] => none
    | x :: rest =>
      if ranges.any (fun p => p.1 ≤ x ∧ x ≤ p.2) then none else k rest caps
  | _ + 1, .digit, s, caps, k =>
    match s with
    | [] => none
    | x :: rest => if '0' ≤ x ∧ x ≤ '9' then k rest caps else none
  | _ + 1, .wsp, s, caps, k =>
    match s with
    | [] => none
    | x :: rest => if isPySpace x then k rest caps else none
  | f + 1, .seq a b, s, caps, k =>
    reM f a s caps (fun s' caps' => reM f b s' caps' k)
  | f + 1, .alt a b, s, caps, k =>
    match reM f a s caps k with
    | some r => some r
    | none => reM f b s caps k
  | f + 1, .opt a, s, caps, k =>
    match reM f a s caps k with
    | some r => some r
    | none => k s caps
  | f + 1, .star a, s, caps, k =>
    match reM f a s caps (fun s' caps' =>
        if s'.length < s.length then reM f (.star a) s' caps' k else none) with
    | some r => some r
    | none => k s caps
  | f + 1, .grp n a, s, caps, k =>
    reM f a s caps
      (fun s' caps' => k s' (setCap caps' n (s.take (s.length - s'.length))))

/-- Fuel sufficient for the matcher's recursion on input `s`. -/
def reFuel (r : Re) (s : Str) : Nat := (s.length + 2) * (r.size + 2)

/-- Match `r` against a prefix of `s`; on success return the remaining input
and the captures. -/
def reMatchAt (r : Re) (s : Str) : Option (Str × Caps) :=
  reM (reFuel r s) r s initCaps (fun rest caps => some (rest, caps))

/-- `re.search` scanning: try each start position left to right; on success
return (captures, length of the matched text, input remaining after it). -/
def reSearchAux (r : Re) : Str → Option (Caps × Nat × Str)
  | [] =>
    match reMatchAt r [] with
    | some (rest, caps) => some (caps, 0, rest)
    | none => none
  | c :: tail =>
    match reMatchAt r (c :: tail) with
    | some (rest, caps) => some (caps, (c :: tail).length - rest.length, rest)
    | none => reSearchAux r tail

/-- `re.search`: the captures of the leftmost match, if any. -/
def reSearch (r : Re) (s : Str) : Option Caps :=
  match reSearchAux r s with
  | some (caps, _, _) => some caps
  | none => none

/-- `re.findall` worker: collect captures of successive non-overlapping
matches, advancing one character after an empty match. -/
def reFindAllAux (r : Re) : Nat → Str → List Caps
  | 0, _ => []
  | f + 1, s =>
    match reSearchAux r s with
    | none => []
    | some (caps, len, rest) =>
      caps ::
        (if len = 0 then
          match rest with
          | [] => []
          | _ :: t => reFindAllAux r f t
        else reFindAllAux r f rest)

/-- `re.findall`: captures of every non-overlapping match, left to right. -/
def reFindAll (r : Re) (s : Str) : List Caps :=
  reFindAllAux r (s.length + 1) s

/-! ## Pattern transliteration helpers -/

/-- First alternative wins, as in Python alternation. -/
def Re.alts : List Re → Re
  | [] => Re.eps
  | [r] => r
  | r :: rest => Re.alt r (Re.alts rest)

/-- A word whose final character is optional, e.g. `создай?`. -/
def Re.wordQ (stem : String) (last : Char) : Re :=
  Re.seq (Re.word stem) (Re.opt (Re.lit last))

/-- The class `[xyz]`. -/
def xyzCls : Re := Re.cls [('x', 'x'), ('y', 'y'), ('z', 'z')]

/-- The class `[xх]` (Latin x and Cyrillic kha). -/
def xKhaCls : Re := Re.cls [('x', 'x'), ('х', 'х')]

/-- `\d+(?:\.\d+)?`, the numeric token shared by all patterns. -/
def numRe : Re :=
  Re.seq (Re.plus Re.digit) (Re.opt (Re.seq (Re.lit '.') (Re.plus Re.digit)))

/-- `(?:на\s+)?`. -/
def optNa : Re := Re.opt (Re.cat [Re.word "на", Re.plus Re.wsp])

/-! ## Numbers: `float(...)` on strings matching `\d+(?:\.\d+)?` -/

/-- Value of a decimal digit character. -/
def digitVal (c : Char) : ℕ := c.toNat - '0'.toNat

/-- Natural number denoted by a digit string. -/
def parseDigits (s : Str) : ℕ := s.foldl (fun a c => a * 10 + digitVal c) 0

/-- `float(s)` for the decimal strings produced by the numeric token,
modelled exactly as a rational. -/
def pyFloat (s : Str) : ℚ :=
  match s.splitOn '.' with
  | [ip] => (parseDigits ip : ℚ)
  | [ip, fp] => (parseDigits ip : ℚ) + (parseDigits fp : ℚ) / ((10 : ℚ) ^ fp.length)
  | _ => 0

/-! ## Data model: parameter values and Commands -/

/-- A Python parameter value: an int (generator defaults), a float (parsed
numbers, modelled as ℚ) or a string (axis labels). -/
inductive PValue : Type
  | int : ℤ → PValue
  | num : ℚ → PValue
  | str : String → PValue
deriving DecidableEq, Repr

/-- A Python dict of parameters, insertion-ordered. -/
abbrev Params := List (String × PValue)

/-- `d[k] = v` on an insertion-ordered dict. -/
def dictSet (ps : Params) (k : String) (v : PValue) : Params :=
  if ps.any (fun p => p.1 = k) then
    ps.map (fun p => if p.1 = k then (k, v) else p)
  else ps ++ [(k, v)]

/-- `k in d`. -/
def dictContains (ps : Params) (k : String) : Bool :=
  ps.any (fun p => p.1 = k)

/-- `d.get(k, default)`. -/
def dictGet (ps : Params) (k : String) (dflt : PValue) : PValue :=
  match ps.lookup k with
  | some v => v
  | none => dflt

/-- The structured command produced by `CommandParser._build_command`. -/
structure Command : Type where
  action : String
  parameters : Params
  original_text : Str
deriving DecidableEq, Repr

/-! ## CommandParser (`command_parser.py`)

`self.command_patterns`, transliterated pattern by pattern; each pattern is
paired with its number of capture groups so that `match.groups()` can be
reproduced as a list of that length. -/

/-- `CommandParser.command_patterns`, in dict insertion order. -/
def commandPatterns : List (String × List (Re × Nat)) :=
  [("create_box",
    [(Re.cat [Re.wordQ "созда" 'й', Re.plus Re.wsp,
        Re.alts [Re.word "коробку", Re.word "прямоугольник", Re.word "куб",
          Re.word "параллелепипед"]], 0),
     (Re.cat [Re.wordQ "сдела" 'й', Re.plus Re.wsp,
        Re.alts [Re.word "коробку", Re.word "прямоугольник", Re.word "куб",
          Re.word "параллелепипед"]], 0),
     (Re.cat [Re.wordQ "добав" 'ь', Re.plus Re.wsp,
        Re.alts [Re.word "коробку", Re.word "прямоугольник", Re.word "куб",
          Re.word "параллелепипед"]], 0)]),
   ("create_cylinder",
    [(Re.cat [Re.wordQ "созда" 'й', Re.plus Re.wsp, Re.word "цилиндр"], 0),
     (Re.cat [Re.wordQ "сдела" 'й', Re.plus Re.wsp, Re.word "цилиндр"], 0),
     (Re.cat [Re.wordQ "добав" 'ь', Re.plus Re.wsp, Re.word "цилиндр"], 0)]),
   ("create_sphere",
    [(Re.cat [Re.wordQ "созда" 'й', Re.plus Re.wsp, Re.word "сферу"], 0),
     (Re.cat [Re.wordQ "сдела" 'й', Re.plus Re.wsp, Re.word "сферу"], 0),
     (Re.cat [Re.wordQ "добав" 'ь', Re.plus Re.wsp, Re.word "сферу"], 0)]),
   ("extrude",
    [(Re.cat [Re.wordQ "выдав" 'и', Re.plus Re.wsp, optNa, Re.grp 0 numRe], 1),
     (Re.cat [Re.wordQ "вытян" 'и', Re.plus Re.wsp, optNa, Re.grp 0 numRe], 1)]),
   ("rotate",
    [(Re.cat [Re.wordQ "поверн" 'и', Re.plus Re.wsp, optNa, Re.grp 0 numRe,
        Re.star Re.wsp, Re.wordQ "градусо" 'в', Re.star Re.wsp,
        Re.opt (Re.cat [Re.word "вокруг", Re.plus Re.wsp, Re.word "оси",
          Re.plus Re.wsp]),
        Re.opt (Re.grp 1 xyzCls)], 2),
     (Re.cat [Re.word "поворот", Re.plus Re.wsp, optNa, Re.grp 0 numRe,
        Re.star Re.wsp, Re.wordQ "градусо" 'в'], 1)]),
   ("translate",
    [(Re.cat [Re.wordQ "перемест" 'и', Re.plus Re.wsp, optNa, Re.grp 0 numRe,
        Re.star Re.wsp, Re.opt (Re.cat [Re.wordQ "едини" 'ц', Re.plus Re.wsp]),
        Re.opt (Re.cat [Re.word "по", Re.plus Re.wsp, Re.word "оси",
          Re.plus Re.wsp]),
        Re.grp 1 xyzCls], 2),
     (Re.cat [Re.wordQ "сдвин" 'ь', Re.plus Re.wsp, optNa, Re.grp 0 numRe,
        Re.star Re.wsp, Re.opt (Re.cat [Re.wordQ "едини" 'ц', Re.plus Re.wsp]),
        Re.opt (Re.cat [Re.word "по", Re.plus Re.wsp, Re.word "оси",
          Re.plus Re.wsp]),
        Re.grp 1 xyzCls], 2)])]

/-- `self.parameter_patterns["dimensions"]`:
`размером?\s+(\d+(?:\.\d+)?)\s*[xх]\s*(\d+(?:\.\d+)?)(?:\s*[xх]\s*(\d+(?:\.\d+)?))?`. -/
def dimensionsRe : Re :=
  Re.cat [Re.wordQ "размеро" 'м', Re.plus Re.wsp, Re.grp 0 numRe,
    Re.star Re.wsp, xKhaCls, Re.star Re.wsp, Re.grp 1 numRe,
    Re.opt (Re.cat [Re.star Re.wsp, xKhaCls, Re.star Re.wsp, Re.grp 2 numRe])]

/-- `self.parameter_patterns["radius"]`: `радиусом?\s+(\d+(?:\.\d+)?)`. -/
def radiusRe : Re :=
  Re.cat [Re.wordQ "радиусо" 'м', Re.plus Re.wsp, Re.grp 0 numRe]

/-- `self.parameter_patterns["height"]`: `высотой?\s+(\d+(?:\.\d+)?)`. -/
def heightRe : Re :=
  Re.cat [Re.wordQ "высото" 'й', Re.plus Re.wsp, Re.grp 0 numRe]

/-- `self.parameter_patterns["length"]`: `длиной?\s+(\d+(?:\.\d+)?)`. -/
def lengthRe : Re :=
  Re.cat [Re.wordQ "длино" 'й', Re.plus Re.wsp, Re.grp 0 numRe]

/-- `self.parameter_patterns["width"]`: `шириной?\s+(\d+(?:\.\d+)?)`. -/
def widthRe : Re :=
  Re.cat [Re.wordQ "ширино" 'й', Re.plus Re.wsp, Re.grp 0 numRe]

/-- `text.lower().strip()`, the normalization applied by both
`parse_natural_language` and `analyze_intent`. -/
def normalize (text : Str) : Str := pyStrip (pyLower text)

/-- `match.groups()` for a pattern with `n` capture groups. -/
def matchGroups (caps : Caps) (n : Nat) : List (Option Str) := caps.take n

/-- Inner loop of `parse_natural_language`: first pattern of the list that
matches wins, yielding its `groups()`. -/
def searchFirst : List (Re × Nat) → Str → Option (List (Option Str))
  | [], _ => none
  | (r, n) :: rest, text =>
    match reSearch r text with
    | some caps => some (matchGroups caps n)
    | none => searchFirst rest text

/-- Outer loop of `parse_natural_language`: first action (in dict order)
with a matching pattern wins. -/
def findCommand : List (String × List (Re × Nat)) → Str →
    Option (String × List (Option Str))
  | [], _ => none
  | (cmd, pats) :: rest, text =>
    match searchFirst pats text with
    | some groups => some (cmd, groups)
    | none => findCommand rest text

/-- `CommandParser._build_command(command, text, groups)`. -/
def build_command (command : String) (text : Str) (groups : List (Option Str)) :
    Command :=
  let parameters : Params :=
    if command = "create_box" then
      -- dims = [float(d) for d in dim_match.groups() if d]
      match reSearch dimensionsRe text with
      | some caps =>
        match ((matchGroups caps 3).filterMap id).map pyFloat with
        | d0 :: d1 :: rest =>
          dictSet (dictSet (dictSet [] "length" (.num d0)) "width" (.num d1))
            "height" (.num (match rest with | d2 :: _ => d2 | [] => d1))
        | _ => []
      | none => []
    else if command = "create_cylinder" then
      let p :=
        match reSearch radiusRe text with
        | some (some r :: _) => dictSet [] "radius" (.num (pyFloat r))
        | _ => []
      match reSearch heightRe text with
      | some (some h :: _) => dictSet p "height" (.num (pyFloat h))
      | _ => p
    else if command = "create_sphere" then
      match reSearch radiusRe text with
      | some (some r :: _) => dictSet [] "radius" (.num (pyFloat r))
      | _ => []
    else if command = "extrude" then
      -- if groups and groups[0]: parameters["distance"] = float(groups[0])
      match groups with
      | some d :: _ => dictSet [] "distance" (.num (pyFloat d))
      | _ => []
    else if command = "rotate" then
      match groups with
      | [] => []
      | g0 :: gs =>
        let p :=
          match g0 with
          | some a => dictSet [] "angle" (.num (pyFloat a))
          | none => []
        match gs with
        | some ax :: _ => dictSet p "axis" (.str (String.mk (pyUpper ax)))
        | _ => dictSet p "axis" (.str "Z")
    else if command = "translate" then
      -- parameters[axis.lower()] = distance, axis defaulting to "X"
      match groups with
      | some d :: gs =>
        let axis : Str :=
          match gs with
          | some ax :: _ => pyUpper ax
          | _ => ['X']
        dictSet [] (String.mk (pyLower axis)) (.num (pyFloat d))
      | _ => []
    else []
  { action := command, parameters := parameters, original_text := text }

/-- `CommandParser.parse_natural_language(text, intent)`.  The `intent`
argument is accepted but, as in the source, never consulted. -/
def parse_natural_language (text : Str) (intent : String) : Option Command :=
  let t := normalize text
  match findCommand commandPatterns t with
  | some (cmd, groups) => some (build_command cmd t groups)
  | none => none

/-- `required_params` table inside `CommandParser.validate_command`. -/
def requiredParams : List (String × List String) :=
  [("create_box", ["length", "width", "height"]),
   ("create_cylinder", ["radius", "height"]),
   ("create_sphere", ["radius"]),
   ("extrude", ["distance"]),
   ("rotate", ["angle"]),
   ("translate", [])]

/-- `CommandParser.validate_command(command)`.  An absent or empty action is
the falsy case of `command.get("action")`. -/
def validate_command (c : Command) : Bool :=
  if c.action = "" then false
  else
    match requiredParams.lookup c.action with
    | some required =>
      if c.action = "translate" then
        ["x", "y", "z"].any (fun axis => dictContains c.parameters axis)
      else required.all (fun p => dictContains c.parameters p)
    | none => true

/-! ## NaturalLanguageProcessor (`natural_language_processor.py`) -/

/-- `self.intent_patterns`, in dict insertion order; every pattern has the
shape `word?\s+`. -/
def intentPatterns : List (String × List Re) :=
  [("create_object",
    [Re.seq (Re.wordQ "созда" 'й') (Re.plus Re.wsp),
     Re.seq (Re.wordQ "сдела" 'й') (Re.plus Re.wsp),
     Re.seq (Re.wordQ "добав" 'ь') (Re.plus Re.wsp),
     Re.seq (Re.wordQ "постро" 'й') (Re.plus Re.wsp),
     Re.seq (Re.wordQ "сгенериру" 'й') (Re.plus Re.wsp)]),
   ("modify_object",
    [Re.seq (Re.wordQ "измен" 'и') (Re.plus Re.wsp),
     Re.seq (Re.wordQ "модифициру" 'й') (Re.plus Re.wsp),
     Re.seq (Re.wordQ "отредактиру" 'й') (Re.plus Re.wsp),
     Re.seq (Re.wordQ "настро" 'й') (Re.plus Re.wsp)]),
   ("transform_object",
    [Re.seq (Re.wordQ "поверн" 'и') (Re.plus Re.wsp),
     Re.seq (Re.wordQ "перемест" 'и') (Re.plus Re.wsp),
     Re.seq (Re.wordQ "сдвин" 'ь') (Re.plus Re.wsp),
     Re.seq (Re.wordQ "выдав" 'и') (Re.plus Re.wsp),
     Re.seq (Re.wordQ "вытян" 'и') (Re.plus Re.wsp),
     Re.seq (Re.wordQ "масштабиру" 'й') (Re.plus Re.wsp)]),
   ("delete_object",
    [Re.seq (Re.wordQ "удал" 'и') (Re.plus Re.wsp),
     Re.seq (Re.wordQ "убер" 'и') (Re.plus Re.wsp),
     Re.seq (Re.wordQ "уничтож" 'ь') (Re.plus Re.wsp)]),
   ("query_object",
    [Re.seq (Re.wordQ "покаж" 'и') (Re.plus Re.wsp),
     Re.seq (Re.wordQ "отобраз" 'и') (Re.plus Re.wsp),
     Re.seq (Re.wordQ "вывед" 'и') (Re.plus Re.wsp),
     Re.seq (Re.wordQ "расскаж" 'и') (Re.plus Re.wsp),
     Re.seq (Re.wordQ "како" 'й') (Re.plus Re.wsp),
     Re.seq (Re.wordQ "чт" 'о') (Re.plus Re.wsp),
     Re.seq (Re.wordQ "гд" 'е') (Re.plus Re.wsp)]),
   ("file_operation",
    [Re.seq (Re.wordQ "сохран" 'и') (Re.plus Re.wsp),
     Re.seq (Re.wordQ "загруз" 'и') (Re.plus Re.wsp),
     Re.seq (Re.wordQ "откро" 'й') (Re.plus Re.wsp),
     Re.seq (Re.wordQ "экспортиру" 'й') (Re.plus Re.wsp),
     Re.seq (Re.wordQ "импортиру" 'й') (Re.plus Re.wsp)])]

/-- Loop of `analyze_intent`: return the first intent (in table order) one of
whose patterns matches. -/
def findIntent : List (String × List Re) → Str → Option String
  | [], _ => none
  | (intentName, pats) :: rest, t =>
    if pats.any (fun p => (reSearch p t).isSome) then some intentName
    else findIntent rest t

/-- `NaturalLanguageProcessor.analyze_intent(text)`. -/
def analyze_intent (text : Str) : String :=
  (findIntent intentPatterns (normalize text)).getD "unknown"

/-- `self.object_types`. -/
def objectTypes : List Str :=
  [strL "коробка", strL "прямоугольник", strL "куб", strL "параллелепипед",
   strL "цилиндр", strL "сфера", strL "шар", strL "конус", strL "пирамида",
   strL "тор", strL "кольцо", strL "труба", strL "объект", strL "элемент"]

/-- `self.measurement_units` (millimetre base unit). -/
def measurementUnits : List (String × ℚ) :=
  [("мм", 1), ("см", 10), ("м", 1000), ("дюйм", 254/10), ("inch", 254/10),
   ("фут", 3048/10), ("foot", 3048/10)]

/-- `pat in text`: substring containment. -/
def hasSub (pat : Str) : Str → Bool
  | [] => pat.isEmpty
  | c :: t => pat.isPrefixOf (c :: t) || hasSub pat t

/-- The measurement pattern `(\d+(?:\.\d+)?)\s*([а-яa-z]+)?`. -/
def measurementRe : Re :=
  Re.cat [Re.grp 0 numRe, Re.star Re.wsp,
    Re.opt (Re.grp 1 (Re.plus (Re.cls [('а', 'я'), ('a', 'z')])))]

/-- The coordinate pattern `([xyz])\s*[=:]\s*(\d+(?:\.\d+)?)`. -/
def coordRe : Re :=
  Re.cat [Re.grp 0 xyzCls, Re.star Re.wsp, Re.cls [('=', '='), (':', ':')],
    Re.star Re.wsp, Re.grp 1 numRe]

/-- The angle pattern `(\d+(?:\.\d+)?)\s*градусов?`. -/
def angleRe : Re :=
  Re.cat [Re.grp 0 numRe, Re.star Re.wsp, Re.wordQ "градусо" 'в']

/-- The entity bag returned by `extract_entities`. -/
structure Entities : Type where
  object_types : List Str
  measurements : List ℚ
  coordinates : List (String × ℚ)
  angles : List ℚ
  colors : List Str
  materials : List Str
deriving DecidableEq, Repr

/-- One measurement from a `findall` tuple `(value, unit)`: convert through
the unit table when the unit token is present and recognised (`if unit and
unit in self.measurement_units`). -/
def measValue (caps : List (Option Str)) : ℚ :=
  match caps with
  | some v :: u :: _ =>
    let value := pyFloat v
    match u with
    | some us =>
      match measurementUnits.lookup (String.mk us) with
      | some mult => value * mult
      | none => value
    | none => value
  | _ => 0  -- unreachable: the first group participates in every match

/-- `NaturalLanguageProcessor.extract_entities(text)`.  Total: never raises,
and yields empty sequences when nothing matches. -/
def extract_entities (text : Str) : Entities :=
  let t := pyLower text
  { object_types := objectTypes.filter (fun o => hasSub o t)
    measurements := (reFindAll measurementRe t).map measValue
    coordinates :=
      (reFindAll coordRe t).filterMap (fun caps =>
        match caps with
        | some ax :: some v :: _ =>
          some (String.mk (pyUpper ax), pyFloat v)
        | _ => none)  -- unreachable: both groups participate in every match
    angles :=
      (reFindAll angleRe t).filterMap (fun caps =>
        match caps with
        | some a :: _ => some (pyFloat a)
        | _ => none)  -- unreachable: the group participates in every match
    colors := []
    materials := [] }

/-! ## Template catalog and code generator (`code_templates.py`,
`freecad_code_generator.py`)

Numeric f-string interpolation is modelled by an exact decimal rendering of
the rational value (ints render with no decimal point, floats with at least
one fractional digit, as in Python).  A single quote character is written
`Char.ofNat 39` and braces `Char.ofNat 123/125`. -/

/-- A single-quote character, as a one-character string. -/
def sq : Str := [Char.ofNat 39]

/-- Fractional digits of `r / d` by long division (stops at remainder 0). -/
def fmtFrac : Nat → Nat → Nat → Str
  | 0, _, _ => []
  | _ + 1, 0, _ => []
  | f + 1, r, d =>
    Char.ofNat ('0'.toNat + r * 10 / d) :: fmtFrac f (r * 10 % d) d

/-- Decimal rendering of a float value (modelled as ℚ): integer part, a
decimal point, and the fractional digits (at least one, as Python prints
`10.0` for a whole float). -/
def fmtQ (q : ℚ) : Str :=
  let n := q.num.natAbs
  let d := q.den
  let frac := fmtFrac 32 (n % d) d
  (if q < 0 then ['-'] else []) ++ Nat.toDigits 10 (n / d) ++ ['.'] ++
    (if frac.isEmpty then ['0'] else frac)

/-- F-string interpolation `f"{v}"` of a parameter value. -/
def fmtVal : PValue → Str
  | .int n => strL (toString n)
  | .num q => fmtQ q
  | .str s => strL s

/-- Python `repr` of a parameter value (strings are quoted). -/
def reprPValue : PValue → Str
  | .int n => strL (toString n)
  | .num q => fmtQ q
  | .str s => sq ++ strL s ++ sq

/-- Python `repr` of a parameter dict, `f"{parameters}"`. -/
def reprParams (ps : Params) : Str :=
  [Char.ofNat 123] ++
    List.intercalate (strL ", ")
      (ps.map (fun p => sq ++ strL p.1 ++ sq ++ strL ": " ++ reprPValue p.2)) ++
    [Char.ofNat 125]

/-- `FreeCADTemplates.create_box`. -/
def tmpl_create_box (length width height : PValue) : Str :=
  strL "# Создание коробки\nbox = doc.addObject(\"Part::Box\", \"Box_" ++
    fmtVal length ++ strL "x" ++ fmtVal width ++ strL "x" ++ fmtVal height ++
    strL "\")\nbox.Length = " ++ fmtVal length ++
    strL "\nbox.Width = " ++ fmtVal width ++
    strL "\nbox.Height = " ++ fmtVal height ++ strL "\ndoc.recompute()"

/-- `FreeCADTemplates.create_cylinder`. -/
def tmpl_create_cylinder (radius height : PValue) : Str :=
  strL "# Создание цилиндра\ncylinder = doc.addObject(\"Part::Cylinder\", \"Cylinder_r" ++
    fmtVal radius ++ strL "_h" ++ fmtVal height ++
    strL "\")\ncylinder.Radius = " ++ fmtVal radius ++
    strL "\ncylinder.Height = " ++ fmtVal height ++ strL "\ndoc.recompute()"

/-- `FreeCADTemplates.create_sphere`. -/
def tmpl_create_sphere (radius : PValue) : Str :=
  strL "# Создание сферы\nsphere = doc.addObject(\"Part::Sphere\", \"Sphere_r" ++
    fmtVal radius ++ strL "\")\nsphere.Radius = " ++ fmtVal radius ++
    strL "\ndoc.recompute()"

/-- `FreeCADTemplates.create_cone`. -/
def tmpl_create_cone (radius1 radius2 height : PValue) : Str :=
  strL "# Создание конуса\ncone = doc.addObject(\"Part::Cone\", \"Cone_r1" ++
    fmtVal radius1 ++ strL "_r2" ++ fmtVal radius2 ++ strL "_h" ++
    fmtVal height ++ strL "\")\ncone.Radius1 = " ++ fmtVal radius1 ++
    strL "\ncone.Radius2 = " ++ fmtVal radius2 ++
    strL "\ncone.Height = " ++ fmtVal height ++ strL "\ndoc.recompute()"

/-- `FreeCADTemplates.create_torus`. -/
def tmpl_create_torus (radius1 radius2 : PValue) : Str :=
  strL "# Создание тора\ntorus = doc.addObject(\"Part::Torus\", \"Torus_r1" ++
    fmtVal radius1 ++ strL "_r2" ++ fmtVal radius2 ++
    strL "\")\ntorus.Radius1 = " ++ fmtVal radius1 ++
    strL "\ntorus.Radius2 = " ++ fmtVal radius2 ++ strL "\ndoc.recompute()"

/-- `FreeCADTemplates.rotate`. -/
def tmpl_rotate (angle axis : PValue) : Str :=
  strL "# Поворот объекта\nimport math\nrotation_angle = math.radians(" ++
    fmtVal angle ++ strL ")\nif \"" ++ fmtVal axis ++
    strL "\".upper() == \"X\":\n    rotation_axis = FreeCAD.Vector(1, 0, 0)\nelif \"" ++
    fmtVal axis ++
    strL "\".upper() == \"Y\":\n    rotation_axis = FreeCAD.Vector(0, 1, 0)\nelse:  # Z\n    rotation_axis = FreeCAD.Vector(0, 0, 1)\n\n# Применяем поворот к последнему объекту\nif doc.Objects:\n    last_obj = doc.Objects[-1]\n    last_obj.Placement = last_obj.Placement * FreeCAD.Placement(FreeCAD.Vector(0,0,0), FreeCAD.Rotation(rotation_axis, rotation_angle))\ndoc.recompute()"

/-- `FreeCADTemplates.translate`. -/
def tmpl_translate (x y z : PValue) : Str :=
  strL "# Перемещение объекта\ntranslation_vector = FreeCAD.Vector(" ++
    fmtVal x ++ strL ", " ++ fmtVal y ++ strL ", " ++ fmtVal z ++
    strL ")\n\n# Применяем перемещение к последнему объекту\nif doc.Objects:\n    last_obj = doc.Objects[-1]\n    last_obj.Placement = last_obj.Placement * FreeCAD.Placement(translation_vector, FreeCAD.Rotation())\ndoc.recompute()"

/-- `FreeCADTemplates.scale`. -/
def tmpl_scale (factor : PValue) : Str :=
  strL "# Масштабирование объекта\nscale_factor = " ++ fmtVal factor ++
    strL "\n\n# Применяем масштабирование к последнему объекту\nif doc.Objects:\n    last_obj = doc.Objects[-1]\n    last_obj.Placement = last_obj.Placement * FreeCAD.Placement(FreeCAD.Vector(0,0,0), FreeCAD.Rotation(), FreeCAD.Vector(scale_factor, scale_factor, scale_factor))\ndoc.recompute()"

/-- `FreeCADTemplates.extrude`. -/
def tmpl_extrude (distance : PValue) : Str :=
  strL "# Выдавливание объекта\nextrude_distance = " ++ fmtVal distance ++
    strL "\n\n# Создаем выдавливание последнего объекта\nif doc.Objects:\n    last_obj = doc.Objects[-1]\n    # Создаем плоскость для выдавливания\n    face = last_obj.Shape.Faces[0] if hasattr(last_obj.Shape, " ++
    sq ++ strL "Faces" ++ sq ++
    strL ") and last_obj.Shape.Faces else None\n    if face:\n        extrude_obj = doc.addObject(\"Part::Extrusion\", \"Extrusion\")\n        extrude_obj.Base = last_obj\n        extrude_obj.Dir = FreeCAD.Vector(0, 0, extrude_distance)\n        doc.recompute()"

/-- `FreeCADTemplates.union`. -/
def tmpl_union : Str :=
  strL "# Объединение объектов\nif len(doc.Objects) >= 2:\n    union_obj = doc.addObject(\"Part::Fuse\", \"Union\")\n    union_obj.Base = doc.Objects[-2]\n    union_obj.Tool = doc.Objects[-1]\n    doc.recompute()"

/-- `FreeCADTemplates.cut`. -/
def tmpl_cut : Str :=
  strL "# Вычитание объектов\nif len(doc.Objects) >= 2:\n    cut_obj = doc.addObject(\"Part::Cut\", \"Cut\")\n    cut_obj.Base = doc.Objects[-2]\n    cut_obj.Tool = doc.Objects[-1]\n    doc.recompute()"

/-- `FreeCADTemplates.intersection`. -/
def tmpl_intersection : Str :=
  strL "# Пересечение объектов\nif len(doc.Objects) >= 2:\n    intersection_obj = doc.addObject(\"Part::Common\", \"Intersection\")\n    intersection_obj.Base = doc.Objects[-2]\n    intersection_obj.Tool = doc.Objects[-1]\n    doc.recompute()"

/-- The fallback fragment of `_generate_code`:
`f"# Неизвестная команда: {intent}\n# Параметры: {parameters}"`. -/
def unknownFragment (intent : String) (parameters : Params) : Str :=
  strL "# Неизвестная команда: " ++ strL intent ++
    strL "\n# Параметры: " ++ reprParams parameters

/-- The action names dispatched by `_generate_code`, in source order. -/
def generatorActions : List String :=
  ["create_box", "create_cylinder", "create_sphere", "create_cone",
   "create_torus", "rotate", "translate", "scale", "extrude", "union",
   "cut", "intersection"]

/-- `FreeCADCodeGenerator._generate_code(intent, parameters)`. -/
def generate_code (intent : String) (parameters : Params) : Str :=
  if intent = "create_box" then
    tmpl_create_box (dictGet parameters "length" (.int 10))
      (dictGet parameters "width" (.int 10))
      (dictGet parameters "height" (.int 10))
  else if intent = "create_cylinder" then
    tmpl_create_cylinder (dictGet parameters "radius" (.int 5))
      (dictGet parameters "height" (.int 10))
  else if intent = "create_sphere" then
    tmpl_create_sphere (dictGet parameters "radius" (.int 5))
  else if intent = "create_cone" then
    tmpl_create_cone (dictGet parameters "radius1" (.int 5))
      (dictGet parameters "radius2" (.int 0))
      (dictGet parameters "height" (.int 10))
  else if intent = "create_torus" then
    tmpl_create_torus (dictGet parameters "radius1" (.int 10))
      (dictGet parameters "radius2" (.int 3))
  else if intent = "rotate" then
    tmpl_rotate (dictGet parameters "angle" (.int 90))
      (dictGet parameters "axis" (.str "Z"))
  else if intent = "translate" then
    tmpl_translate (dictGet parameters "x" (.int 0))
      (dictGet parameters "y" (.int 0))
      (dictGet parameters "z" (.int 0))
  else if intent = "scale" then
    tmpl_scale (dictGet parameters "factor" (.int 2))
  else if intent = "extrude" then
    tmpl_extrude (dictGet parameters "distance" (.int 5))
  else if intent = "union" then tmpl_union
  else if intent = "cut" then tmpl_cut
  else if intent = "intersection" then tmpl_intersection
  else unknownFragment intent parameters

/-! ## Executor (`code_executor.py`)

Host-process effects are oracles: the subprocess outcome (`SubprocOutcome`)
and the elapsed wall-clock time are arguments.  `_execute_with_freecad`
returns, besides the result record, whether the temporary script file still
exists after the `finally` block ran. -/

/-- The execution/validation result record.  The Python code returns dicts
with branch-dependent keys; absent keys are `none` / `false` / `[]` here. -/
structure ExecResult : Type where
  success : Bool
  output : Str
  error : Option Str
  error_output : Option Str
  execution_time : ℚ
  return_code : Option ℤ
  simulation : Bool
  objects_created : List (Str × Str)
  operations_performed : List String
deriving DecidableEq, Repr

/-- Outcome of the single `subprocess.run` invocation. -/
inductive SubprocOutcome : Type
  | completed : ℤ → Str → Str → SubprocOutcome
  | timedOut : SubprocOutcome
  | failed : Str → SubprocOutcome
deriving DecidableEq, Repr

/-- The timeout-classified error message `f"Таймаут выполнения ({timeout}s)"`. -/
def timeoutErrorMsg (timeout : ℤ) : Str :=
  strL "Таймаут выполнения (" ++ strL (toString timeout) ++ strL "s)"

/-- `CodeExecutor._execute_with_freecad(code, timeout)`.  The second
component records whether the temporary script file exists on return; the
`finally` clause removes it on every exit path. -/
def execute_with_freecad (code : Str) (timeout : ℤ) (outcome : SubprocOutcome)
    (elapsed : ℚ) : ExecResult × Bool :=
  -- tempfile.NamedTemporaryFile(delete=False) has written `code`:
  let tempExists := true
  let result : ExecResult :=
    match outcome with
    | .completed rc out err =>
      { success := rc == 0, output := out, error := none,
        error_output := some err, execution_time := elapsed,
        return_code := some rc, simulation := false, objects_created := [],
        operations_performed := [] }
    | .timedOut =>
      { success := false, output := [], error := some (timeoutErrorMsg timeout),
        error_output := none, execution_time := (timeout : ℚ),
        return_code := none, simulation := false, objects_created := [],
        operations_performed := [] }
    | .failed msg =>
      { success := false, output := [], error := some msg,
        error_output := none, execution_time := elapsed, return_code := none,
        simulation := false, objects_created := [], operations_performed := [] }
  -- finally: if os.path.exists(temp_file): os.unlink(temp_file)
  (result, if tempExists then false else tempExists)

/-- `re.search(r'addObject\("([^"]+)",\s*"([^"]+)"\)', line)`. -/
def addObjectRe : Re :=
  Re.cat [Re.word "addObject", Re.lit '(', Re.lit '"',
    Re.grp 0 (Re.plus (Re.ncls [('"', '"')])), Re.lit '"', Re.lit ',',
    Re.star Re.wsp, Re.lit '"', Re.grp 1 (Re.plus (Re.ncls [('"', '"')])),
    Re.lit '"', Re.lit ')']

/-- The contribution of one script line to the static scan of
`_simulate_code_execution`: output lines, created objects (type, name) and
operation tags.  Mirrors the `if`/`elif` chain of the source. -/
def simLineOut (rawLine : Str) : List Str × List (Str × Str) × List String :=
  let line := pyStrip rawLine
  match line with
  | [] => ([], [], [])
  | c :: _ =>
    if c = '#' then ([], [], [])
    else if hasSub (strL "addObject") line then
      match reSearch addObjectRe line with
      | some (some ty :: some nm :: _) =>
        ([strL "Создан объект: " ++ nm ++ strL " (" ++ ty ++ strL ")"],
         [(ty, nm)], [])
      | _ => ([], [], [])
    else if hasSub (strL "recompute") line then
      ([strL "Пересчет документа"], [], ["recompute"])
    else if hasSub (strL "Placement") line then
      ([strL "Применена трансформация"], [], ["transformation"])
    else if hasSub (strL "addEdge") line then
      ([strL "Добавлено скругление/фаска"], [], ["fillet/chamfer"])
    else if hasSub (strL "addGeometry") line then
      ([strL "Добавлена геометрия в эскиз"], [], ["sketch"])
    else ([], [], [])

/-- Accumulate the scan over all lines, preserving order. -/
def simScan : List Str → List Str × List (Str × Str) × List String
  | [] => ([], [], [])
  | l :: rest =>
    let c := simLineOut l
    let r := simScan rest
    (c.1 ++ r.1, c.2.1 ++ r.2.1, c.2.2 ++ r.2.2)

/-- Result of `CodeExecutor._simulate_code_execution`. -/
structure SimResult : Type where
  output : Str
  objects_created : List (Str × Str)
  operations : List String
deriving DecidableEq, Repr

/-- `CodeExecutor._simulate_code_execution(code)`: line-oriented static scan
of the script text; a pure function of the text. -/
def simulate_code_execution (code : Str) : SimResult :=
  let s := simScan (code.splitOn '\n')
  { output := List.intercalate (strL "\n") s.1
    objects_created := s.2.1
    operations := s.2.2 }

/-- `CodeExecutor._execute_simulation(code)`; the elapsed wall-clock time of
the scan is an oracle argument. -/
def execute_simulation (code : Str) (elapsed : ℚ) : ExecResult :=
  let sim := simulate_code_execution code
  { success := true, output := sim.output, error := none, error_output := none,
    execution_time := elapsed, return_code := none, simulation := true,
    objects_created := sim.objects_created,
    operations_performed := sim.operations }

/-- `CodeExecutor.execute_code(code, timeout)`: dispatch on the mode flag
fixed at construction.  The second component is whether a temporary script
file exists on return (the simulation path never creates one). -/
def execute_code (freecadAvailable : Bool) (code : Str) (timeout : ℤ)
    (outcome : SubprocOutcome) (elapsed : ℚ) : ExecResult × Bool :=
  if freecadAvailable then execute_with_freecad code timeout outcome elapsed
  else (execute_simulation code elapsed, false)

/-! ## Spec-side descriptions

These two definitions follow the specification's words (§4.1, §4.2) rather
than the source, and are compared with the source-derived definitions in the
refinement-style claims below. -/

/-- Spec-side: the translate parameter key is named after the resolved axis
(`groups[1].upper()` then lowered), defaulting to X when the axis group is
absent. -/
def translateAxisKey (gs : List (Option Str)) : String :=
  match gs with
  | some ax :: _ => String.mk (pyLower (pyUpper ax))
  | _ => String.mk (pyLower ['X'])

/-- Spec-side: intent classification returns the first intent in table order
one of whose patterns matches the normalized utterance. -/
def firstMatchingIntent (text : Str) : Option String :=
  (intentPatterns.find? (fun pr =>
    pr.2.any (fun p => (reSearch p (normalize text)).isSome))).map Prod.fst

/-! ## Helper lemmas -/

/-- Two strings differing within their first four characters differ. -/
theorem ne_of_take4_ne {s t : Str} (h : s.take 4 ≠ t.take 4) : s ≠ t :=
  fun e => h (congrArg (List.take 4) e)

/-- If every line contributes nothing, the scan is empty. -/
theorem simScan_of_noop {lines : List Str}
    (h : ∀ l ∈ lines, simLineOut l = ([], [], [])) :
    simScan lines = ([], [], []) := by
  induction lines with
  | nil => rfl
  | cons l rest ih =>
    have hl := h l (by simp)
    have hr := ih (fun x hx => h x (by simp [hx]))
    simp [simScan, hl, hr]

/-- The intent loop returns the first table entry with a matching pattern. -/
theorem findIntent_eq_find? (tbl : List (String × List Re)) (t : Str) :
    findIntent tbl t =
      (tbl.find? (fun pr => pr.2.any (fun p => (reSearch p t).isSome))).map
        Prod.fst := by
  induction tbl with
  | nil => rfl
  | cons hd tl ih =>
    obtain ⟨nm, pats⟩ := hd
    by_cases h : pats.any (fun p => (reSearch p t).isSome) = true
    · simp [findIntent, List.find?, h]
    · simp only [Bool.not_eq_true] at h
      simp [findIntent, List.find?, h, ih]

/-! ## Claims -/

/-- C10: `parse_natural_language(text, intent)` is independent of the
`intent` argument — the parameter is never consulted, so any two intent
values yield the same result. -/
theorem C10_parse_ignores_intent (text : Str) (i1 i2 : String) :
    parse_natural_language text i1 = parse_natural_language text i2 := rfl

/-- C4: in simulation mode, two executions of identical script text produce
identical `objects_created` and identical `operations_performed`, whatever
the elapsed times (and other host oracles) of the two calls were. -/
theorem C4_simulation_deterministic (code : Str) (to1 to2 : ℤ)
    (o1 o2 : SubprocOutcome) (t1 t2 : ℚ) :
    (execute_code false code to1 o1 t1).1.objects_created =
      (execute_code false code to2 o2 t2).1.objects_created ∧
    (execute_code false code to1 o1 t1).1.operations_performed =
      (execute_code false code to2 o2 t2).1.operations_performed :=
  ⟨rfl, rfl⟩

/-- C3: in host-available mode the temporary script file is removed on every
exit path of `execute_code`, and a timed-out subprocess yields
`success = false`, the timeout-classified error message, and
`execution_time` exactly equal to the timeout. -/
theorem C3_host_timeout_and_cleanup (code : Str) (timeout : ℤ)
    (outcome : SubprocOutcome) (elapsed : ℚ) :
    (execute_code true code timeout outcome elapsed).2 = false ∧
    (outcome = SubprocOutcome.timedOut →
      (execute_code true code timeout outcome elapsed).1.success = false ∧
      (execute_code true code timeout outcome elapsed).1.error =
        some (timeoutErrorMsg timeout) ∧
      (execute_code true code timeout outcome elapsed).1.execution_time =
        (timeout : ℚ)) := by
  refine ⟨rfl, fun h => ?_⟩
  subst h
  exact ⟨rfl, rfl, rfl⟩

/-- C3 witness: a concrete timed-out host execution. -/
theorem C3_host_timeout_witness :
    (execute_code true (strL "print(1)") 30 SubprocOutcome.timedOut 0).2 = false ∧
    (execute_code true (strL "print(1)") 30 SubprocOutcome.timedOut 0).1.success
      = false ∧
    (execute_code true (strL "print(1)") 30 SubprocOutcome.timedOut 0).1.execution_time
      = (30 : ℚ) := by
  have h := C3_host_timeout_and_cleanup (strL "print(1)") 30
    SubprocOutcome.timedOut 0
  exact ⟨h.1, (h.2 rfl).1, (h.2 rfl).2.2⟩

/-- C9: simulation mode reports `success = true` and `simulation = true` for
every input text, and a script all of whose lines contribute nothing to the
scan yields empty `objects_created` and `operations_performed`. -/
theorem C9_simulation_never_fails (code : Str) (elapsed : ℚ) :
    (execute_simulation code elapsed).success = true ∧
    (execute_simulation code elapsed).simulation = true ∧
    ((∀ l ∈ code.splitOn '\n', simLineOut l = ([], [], [])) →
      (execute_simulation code elapsed).objects_created = [] ∧
      (execute_simulation code elapsed).operations_performed = []) := by
  refine ⟨rfl, rfl, fun h => ?_⟩
  have hs := simScan_of_noop h
  simp [execute_simulation, simulate_code_execution, hs]

/-- C9 witness: a concrete non-script input executes successfully in
simulation mode with empty object and operation lists. -/
theorem C9_simulation_witness :
    (execute_simulation (strL "this is not python !!") 0).success = true ∧
    (execute_simulation (strL "this is not python !!") 0).objects_created = [] ∧
    (execute_simulation (strL "this is not python !!") 0).operations_performed
      = [] := by
  have h := C9_simulation_never_fails (strL "this is not python !!") 0
  have he := h.2.2 (by decide)
  exact ⟨h.1, he.1, he.2⟩

/-- C7: for every action outside the generator's dispatch table and every
parameter mapping, `_generate_code` returns (never raises) the fallback
comment fragment, which embeds the unknown action name and the parameters. -/
theorem C7_unknown_action_fallback (action : String) (parameters : Params)
    (h : action ∉ generatorActions) :
    generate_code action parameters = unknownFragment action parameters := by
  simp only [generatorActions, List.mem_cons, List.not_mem_nil, or_false,
    not_or] at h
  obtain ⟨h1, h2, h3, h4, h5, h6, h7, h8, h9, h10, h11, h12⟩ := h
  simp [generate_code, h1, h2, h3, h4, h5, h6, h7, h8, h9, h10, h11, h12]

/-- C7 witness: the unknown action `"fly"` falls back to the comment
fragment. -/
theorem C7_unknown_action_witness :
    "fly" ∉ generatorActions ∧
    generate_code "fly" [("n", PValue.int 7)] =
      unknownFragment "fly" [("n", PValue.int 7)] :=
  ⟨by decide, C7_unknown_action_fallback "fly" [("n", PValue.int 7)] (by decide)⟩

/-- C1 counterexample: the Command `{action: "warp", parameters: {}}`
validates true (its action is outside the validator's required-parameter
table, so `validate_command` falls through to `return True`), yet
`_generate_code` returns exactly the fallback/unknown fragment for it. -/
theorem C1_counterexample_unknown_action_validates :
    validate_command { action := "warp", parameters := [], original_text := [] }
      = true ∧
    generate_code "warp" [] = unknownFragment "warp" [] := by
  constructor
  · decide
  · rfl

/-- C1 (amended): for every Command whose action belongs to the validator's
required-parameter table, if `validate_command` returns true then
`_generate_code` does not return the fallback/unknown fragment. -/
theorem C1_validated_known_action_not_fallback (c : Command)
    (hk : c.action ∈ requiredParams.map Prod.fst)
    (hv : validate_command c = true) :
    generate_code c.action c.parameters ≠ unknownFragment c.action c.parameters := by
  have _ := hv
  simp only [requiredParams, List.map_cons, List.map_nil, List.mem_cons,
    List.not_mem_nil, or_false] at hk
  rcases hk with h | h | h | h | h | h <;> rw [h] <;>
    apply ne_of_take4_ne
  · exact (by decide : strL "# Со" ≠ strL "# Не")
  · exact (by decide : strL "# Со" ≠ strL "# Не")
  · exact (by decide : strL "# Со" ≠ strL "# Не")
  · exact (by decide : strL "# Вы" ≠ strL "# Не")
  · exact (by decide : strL "# По" ≠ strL "# Не")
  · exact (by decide : strL "# Пе" ≠ strL "# Не")

/-- C1 witness: a concrete validated box Command whose generated code is not
the fallback fragment. -/
theorem C1_validated_box_witness :
    ("create_box" : String) ∈ requiredParams.map Prod.fst ∧
    validate_command
      { action := "create_box",
        parameters := [("length", PValue.num 10), ("width", PValue.num 5),
          ("height", PValue.num 5)],
        original_text := [] } = true ∧
    generate_code "create_box"
        [("length", PValue.num 10), ("width", PValue.num 5),
          ("height", PValue.num 5)] ≠
      unknownFragment "create_box"
        [("length", PValue.num 10), ("width", PValue.num 5),
          ("height", PValue.num 5)] :=
  ⟨by decide, by decide,
    C1_validated_known_action_not_fallback
      { action := "create_box",
        parameters := [("length", PValue.num 10), ("width", PValue.num 5),
          ("height", PValue.num 5)],
        original_text := [] } (by decide) (by decide)⟩

/-- C8: the translate branch of `_build_command` stores the extracted
distance under the parameter key named after the resolved axis (defaulting
to X when the axis group is absent), and `validate_command` on a translate
Command returns true iff one of the keys x, y, z is present. -/
theorem C8_translate_axis_key_and_validation (text : Str) (d : Str)
    (gs : List (Option Str)) (c : Command) :
    (build_command "translate" text (some d :: gs) =
      { action := "translate",
        parameters := [(translateAxisKey gs, PValue.num (pyFloat d))],
        original_text := text }) ∧
    (c.action = "translate" →
      (validate_command c = true ↔
        (dictContains c.parameters "x" = true ∨
         dictContains c.parameters "y" = true ∨
         dictContains c.parameters "z" = true))) := by
  constructor
  · rcases gs with _ | ⟨ax | _, t⟩ <;>
      simp [build_command, translateAxisKey, dictSet]
  · intro h
    simp [validate_command, h, requiredParams, List.lookup, dictContains]

/-- C8 witness: a concrete translate build (distance 5, axis y) and a
concrete translate Command validating through its y key. -/
theorem C8_translate_witness :
    build_command "translate" [] [some (strL "5"), some (strL "y")] =
      { action := "translate", parameters := [("y", PValue.num 5)],
        original_text := [] } ∧
    validate_command
      { action := "translate", parameters := [("y", PValue.num 10)],
        original_text := [] } = true := by
  have h := C8_translate_axis_key_and_validation [] (strL "5")
    [some (strL "y")]
    { action := "translate", parameters := [("y", PValue.num 10)],
      original_text := [] }
  exact ⟨h.1.trans (by decide), (h.2 rfl).mpr (Or.inr (Or.inl (by decide)))⟩

/-- C6: `analyze_intent` returns the first intent in table order whose
pattern list matches the normalized utterance and `"unknown"` when none
match; the keyword-free utterance `"abcdef"` classifies as `"unknown"` and
fails to parse into a Command for every intent argument. -/
theorem C6_first_intent_wins_and_unknown :
    (∀ text : Str,
      analyze_intent text = (firstMatchingIntent text).getD "unknown") ∧
    analyze_intent (strL "abcdef") = "unknown" ∧
    ∀ intent : String, parse_natural_language (strL "abcdef") intent = none := by
  refine ⟨fun text => ?_, by decide, fun intent => ?_⟩
  · rw [analyze_intent, firstMatchingIntent, findIntent_eq_find?]
  · exact (by decide : parse_natural_language (strL "abcdef") "unknown" = none)

/-- C2: whenever an utterance selects the `create_box` action and its
box-dimension pattern yields exactly two numbers, `parse_natural_language`
returns a `create_box` Command with `length` the first number, `width` the
second, and the missing `height` defaulting to the `width` value. -/
theorem C2_box_height_defaults_to_width (text : Str) (intent : String)
    (groups : List (Option Str)) (d1 d2 : Str) (rest : Caps)
    (hc : findCommand commandPatterns (normalize text) =
      some ("create_box", groups))
    (hd : reSearch dimensionsRe (normalize text) =
      some (some d1 :: some d2 :: none :: rest)) :
    parse_natural_language text intent =
      some { action := "create_box",
             parameters := [("length", PValue.num (pyFloat d1)),
                            ("width", PValue.num (pyFloat d2)),
                            ("height", PValue.num (pyFloat d2))],
             original_text := normalize text } := by
  simp [parse_natural_language, hc, build_command, hd, matchGroups, dictSet]

/-- C2 witness: `"Создай коробку размером 10x5"` parses to a box Command
with length 10, width 5 and height defaulting to 5. -/
theorem C2_box_defaulting_witness :
    findCommand commandPatterns
        (normalize (strL "Создай коробку размером 10x5")) =
      some ("create_box", []) ∧
    reSearch dimensionsRe (normalize (strL "Создай коробку размером 10x5")) =
      some [some (strL "10"), some (strL "5"), none, none] ∧
    parse_natural_language (strL "Создай коробку размером 10x5")
        "create_object" =
      some { action := "create_box",
             parameters := [("length", PValue.num 10),
                            ("width", PValue.num 5),
                            ("height", PValue.num 5)],
             original_text := normalize (strL "Создай коробку размером 10x5") } := by
  have hc : findCommand commandPatterns
      (normalize (strL "Создай коробку размером 10x5")) =
      some ("create_box", []) := by decide
  have hd : reSearch dimensionsRe
      (normalize (strL "Создай коробку размером 10x5")) =
      some [some (strL "10"), some (strL "5"), none, none] := by decide
  refine ⟨hc, hd, ?_⟩
  exact (C2_box_height_defaults_to_width
      (strL "Создай коробку размером 10x5") "create_object" []
      (strL "10") (strL "5") [none] hc hd).trans (by decide)

/-- C5: every decimal number found by the measurement scan appears as a
measurement (converted through the fixed unit table mm→1, cm→10, m→1000,
inch→25.4, foot→304.8 when the adjacent unit token is recognised, left
unconverted otherwise, as `measValue` does); `extract_entities "5 см"`
yields exactly the measurement 50; the empty utterance yields all-empty
entity sequences (the extractor is total and never raises). -/
theorem C5_measurements_and_units :
    (∀ text : Str, ∀ caps ∈ reFindAll measurementRe (pyLower text),
        measValue caps ∈ (extract_entities text).measurements) ∧
    (extract_entities (strL "5 см")).measurements = [50] ∧
    extract_entities [] = ⟨[], [], [], [], [], []⟩ ∧
    measurementUnits.lookup "мм" = some 1 ∧
    measurementUnits.lookup "см" = some 10 ∧
    measurementUnits.lookup "м" = some 1000 ∧
    measurementUnits.lookup "дюйм" = some (254/10) ∧
    measurementUnits.lookup "inch" = some (254/10) ∧
    measurementUnits.lookup "фут" = some (3048/10) ∧
    measurementUnits.lookup "foot" = some (3048/10) := by
  refine ⟨fun text caps hc => List.mem_map_of_mem measValue hc, ?_, by decide,
    rfl, rfl, rfl, rfl, rfl, rfl, rfl⟩
  have h1 : reFindAll measurementRe (pyLower (strL "5 см")) =
      [[some (strL "5"), some (strL "см"), none, none]] := by decide
  have hm : measValue [some (strL "5"), some (strL "см"), none, none] = 50 := by
    have hv : measValue [some (strL "5"), some (strL "см"), none, none] =
        pyFloat (strL "5") * 10 := rfl
    rw [hv, (by decide : pyFloat (strL "5") = (5 : ℚ))]
    norm_num
  show (reFindAll measurementRe (pyLower (strL "5 см"))).map measValue = [50]
  rw [h1, List.map_cons, List.map_nil, hm]

/-- C5 witness: the single measurement match of `"5 см"` contributes its
converted value to the extracted measurements. -/
theorem C5_measurements_witness :
    [some (strL "5"), some (strL "см"), none, none] ∈
      reFindAll measurementRe (pyLower (strL "5 см")) ∧
    measValue [some (strL "5"), some (strL "см"), none, none] ∈
      (extract_entities (strL "5 см")).measurements :=
  ⟨by decide,
    C5_measurements_and_units.1 (strL "5 см")
      [some (strL "5"), some (strL "см"), none, none] (by decide)⟩

end CadEnv
